import Mathlib

/-!
Shallow embedding of `CableAPI/APICable.py` (class `RigidBodyRopes`): the
rope/cable topology builder and joint-constraint parameterization engine.
Floating-point quantities are modelled over the reals; Python's `int()`
conversion is modelled as truncation toward zero.
-/

namespace CableSim

noncomputable section

/-- Python `int()` applied to a real number: truncation toward zero. -/
def pyInt (q : ℝ) : ℤ := if 0 ≤ q then ⌊q⌋ else ⌈q⌉

/-- A 3-component vector (`Gf.Vec3f`, modelled over the reals). -/
structure Vec3 where
  x : ℝ
  y : ℝ
  z : ℝ

/-- Component-wise vector addition (used only to state properties). -/
def Vec3.add (a b : Vec3) : Vec3 := ⟨a.x + b.x, a.y + b.y, a.z + b.z⟩

/-- Scalar multiple of a vector (used only to state properties). -/
def Vec3.scale (c : ℝ) (v : Vec3) : Vec3 := ⟨c * v.x, c * v.y, c * v.z⟩

/-- A quaternion (w, x, y, z), as `Gf.Quath` with real components. -/
structure Quat where
  w : ℝ
  x : ℝ
  y : ℝ
  z : ℝ

/-- Hamilton product of two quaternions (`Gf.Quath` multiplication). -/
def Quat.mul (p q : Quat) : Quat :=
  ⟨p.w * q.w - p.x * q.x - p.y * q.y - p.z * q.z,
   p.w * q.x + p.x * q.w + p.y * q.z - p.z * q.y,
   p.w * q.y - p.x * q.z + p.y * q.w + p.z * q.x,
   p.w * q.z + p.x * q.y - p.y * q.x + p.z * q.w⟩

/-- Quaternion conjugate. -/
def Quat.conj (q : Quat) : Quat := ⟨q.w, -q.x, -q.y, -q.z⟩

/-- Rotate a vector by a (unit) quaternion: the vector part of `q·(0,v)·q̄`. -/
def Quat.rotate (q : Quat) (v : Vec3) : Vec3 :=
  let p := (q.mul ⟨0, v.x, v.y, v.z⟩).mul q.conj
  ⟨p.x, p.y, p.z⟩

/-- The identity quaternion, `Gf.Quath(1.0)`. -/
def Quat.one : Quat := ⟨1, 0, 0, 0⟩

/-- The six degrees of freedom of a D6 joint. -/
inductive Dof
  | transX
  | transY
  | transZ
  | rotX
  | rotY
  | rotZ
  deriving DecidableEq

/-- `UsdPhysics.LimitAPI` state for one DOF: the API may be applied with
neither, either or both of the low/high attributes created. -/
structure DofLimit where
  low : Option ℝ
  high : Option ℝ

/-- `PhysxSchema.PhysxLimitAPI` state for one DOF. -/
structure PhysxLimit where
  stiffness : ℝ
  damping : ℝ
  contactDistance : ℝ

/-- `UsdPhysics.DriveAPI` state for one DOF. -/
structure DofDrive where
  typ : String
  maxForce : ℝ
  damping : ℝ
  stiffness : ℝ

/-- Everything the builder may author on a single DOF of a D6 joint prim. -/
structure DofSpec where
  limit : Option DofLimit := none
  physxLimit : Option PhysxLimit := none
  drive : Option DofDrive := none

/-- A D6 joint prim: the per-DOF authored state. A freshly defined joint
has nothing authored on any DOF. -/
structure D6Joint where
  transX : DofSpec := {}
  transY : DofSpec := {}
  transZ : DofSpec := {}
  rotX : DofSpec := {}
  rotY : DofSpec := {}
  rotZ : DofSpec := {}

/-- Read the authored state of one DOF. -/
def D6Joint.get (j : D6Joint) : Dof → DofSpec
  | .transX => j.transX
  | .transY => j.transY
  | .transZ => j.transZ
  | .rotX => j.rotX
  | .rotY => j.rotY
  | .rotZ => j.rotZ

/-- Replace the authored state of one DOF. -/
def D6Joint.set (j : D6Joint) (d : Dof) (s : DofSpec) : D6Joint :=
  match d with
  | .transX => { j with transX := s }
  | .transY => { j with transY := s }
  | .transZ => { j with transZ := s }
  | .rotX => { j with rotX := s }
  | .rotY => { j with rotY := s }
  | .rotZ => { j with rotZ := s }

/-- The translation-axis selector passed to `_createCableJoint`. -/
inductive Axis
  | X
  | Y
  | Z
  deriving DecidableEq

/-- The slide DOF tuple of `_createCableJoint` for each axis. -/
def slideDOF : Axis → List Dof
  | .Z => [.transZ]
  | .X => [.transX]
  | .Y => [.transY]

/-- The locked DOF list of `_createCableJoint` for each axis. -/
def lockedDOFs : Axis → List Dof
  | .Z => [.transX, .transY]
  | .X => [.transY, .transZ]
  | .Y => [.transX, .transZ]

/-- The rotated DOF list of `_createCableJoint` for each axis. -/
def rotatedDOFs : Axis → List Dof
  | .Z => [.rotX, .rotY, .rotZ]
  | .X => [.rotY, .rotZ, .rotX]
  | .Y => [.rotX, .rotZ, .rotY]

/-- The configuration state set up by `RigidBodyRopes.create` before any
rope is built (instance attributes of the Python class). -/
structure RopesConfig where
  numRopes : ℕ
  ropeLength : ℝ
  payloadMass : ℝ
  initLoadHeight : ℝ
  payloadRadius : ℝ
  payloadHight : ℝ
  linkHalfLength : ℝ
  linkRadius : ℝ
  ropeSpacing : ℝ
  coneAngleLimit : ℝ
  slideLimit : ℝ
  slideMaxforceLimit : ℝ
  slide_stiffness : ℝ
  slide_damping : ℝ
  slide_stiffness_limit : ℝ
  slide_damping_limit : ℝ
  scaleFactor : ℝ
  tableThickness : ℝ
  boxSize : ℝ

/-- The attribute assignments at the top of `RigidBodyRopes.create`
(lines 59-117 of `APICable.py`).  `metersPerUnit` abstracts the stage
metadata queried by `UsdGeom.GetStageMetersPerUnit`. -/
def create (num_ropes : ℕ) (rope_length payload_mass load_height metersPerUnit : ℝ) :
    RopesConfig :=
  { numRopes := num_ropes
    ropeLength := rope_length
    payloadMass := payload_mass
    initLoadHeight := load_height
    payloadRadius := 0.24
    payloadHight := 0.24 / 4
    linkHalfLength := 0.06
    linkRadius := 0.02
    ropeSpacing := 15.0
    coneAngleLimit := 160
    slideLimit := 0.1
    slideMaxforceLimit := 10.0 * payload_mass * 9.81
    slide_stiffness := 100000
    slide_damping := 1000
    slide_stiffness_limit := 11 * 100000
    slide_damping_limit := 1000
    scaleFactor := 1.0 / (metersPerUnit * 100.0)
    tableThickness := 6.0
    boxSize := 12.0 }

/-- `_createCableJoint(jointPath, axis)`: one compliant slide DOF with
limit spring and force-capped drive, two locked translations, and the
three rotations touched by `LimitAPI.Apply` with no bounds authored. -/
def createCableJoint (cfg : RopesConfig) (a : Axis) : D6Joint :=
  let j1 := (slideDOF a).foldl (fun j d => j.set d
    { limit := some ⟨some (-1), some 0.01⟩
      physxLimit := some ⟨cfg.slide_stiffness_limit, cfg.slide_damping_limit, 0.0001⟩
      drive := some ⟨"force", cfg.slideMaxforceLimit, cfg.slide_damping, cfg.slide_stiffness⟩ })
    {}
  let j2 := (lockedDOFs a).foldl (fun j d => j.set d
    { limit := some ⟨some 0.0, some 0.0⟩ }) j1
  (rotatedDOFs a).foldl (fun j d => j.set d { limit := some ⟨none, none⟩ }) j2

/-- `_createFixJoint(jointPath)`: all six DOFs authored with the inverted
range low = 1, high = -1. -/
def createFixJoint (_cfg : RopesConfig) : D6Joint :=
  [Dof.transX, Dof.transY, Dof.transZ, Dof.rotX, Dof.rotY, Dof.rotZ].foldl
    (fun j d => j.set d { limit := some ⟨some 1.0, some (-1.0)⟩ }) {}

/-- `_createUniJoint(jointPath)`: the three translations and `rotZ` locked
with a zero-width range; `rotX` and `rotY` bounded by ± the cone-angle
limit. -/
def createUniJoint (cfg : RopesConfig) : D6Joint :=
  let j1 := [Dof.transX, Dof.transY, Dof.transZ, Dof.rotZ].foldl
    (fun j d => j.set d { limit := some ⟨some 0.0, some 0.0⟩ }) {}
  [Dof.rotX, Dof.rotY].foldl
    (fun j d => j.set d
      { limit := some ⟨some (-cfg.coneAngleLimit), some cfg.coneAngleLimit⟩ }) j1

/-- `calculate_orientation(angle, axis)`: quaternion for a rotation of
`angle` radians about the normalized `vaxis`. -/
def calculate_orientation (angle : ℝ) (vaxis : Vec3) : Quat :=
  let half_angle := angle / 2
  let sin_half_angle := Real.sin half_angle
  let cos_half_angle := Real.cos half_angle
  let nrm := Real.sqrt (vaxis.x ^ 2 + vaxis.y ^ 2 + vaxis.z ^ 2)
  ⟨cos_half_angle, vaxis.x / nrm * sin_half_angle, vaxis.y / nrm * sin_half_angle,
    vaxis.z / nrm * sin_half_angle⟩

/-- The bodies a joint instancer's body-relationship can target. -/
inductive BodyRef
  | payload
  | links (ropeInd : ℕ)
  | table
  | box (ropeInd : ℕ)
  deriving DecidableEq

/-- One `PhysxPhysicsJointInstancer`: a joint prototype plus the parallel
index / local-frame arrays authored on it. -/
structure JointInstancer where
  prototype : D6Joint
  body0Target : BodyRef
  body1Target : BodyRef
  protoIndices : List ℤ
  body0Indices : List ℤ
  body1Indices : List ℤ
  localPos0 : List Vec3
  localPos1 : List Vec3
  localRot0 : List Quat
  localRot1 : List Quat

/-- Everything one rope contributes to the stage: link poses plus the
chain, payload-attachment and structure-attachment joint instancers. -/
structure RopeAssembly where
  positions : List Vec3
  orientations : List Quat
  chain : JointInstancer
  payloadAttach : JointInstancer
  anchorAttach : JointInstancer

/-- The link pitch `linkLength = linkHalfLength + 2 * linkRadius`
(lines 286 and 428). -/
def linkLengthOf (cfg : RopesConfig) : ℝ := cfg.linkHalfLength + 2 * cfg.linkRadius

/-- `numLinks = int(ropeLength / linkLength)` (lines 287 and 429). -/
def numLinksOf (cfg : RopesConfig) : ℤ := pyInt (cfg.ropeLength / linkLengthOf cfg)

/-- The body of the per-rope loop of `_createVerticalRopes` (lines 285-423):
capsule poses stacked along Z plus the three joint instancers. -/
def verticalRope (cfg : RopesConfig) (ropeInd : ℕ) : RopeAssembly :=
  let linkLength := linkLengthOf cfg
  let numLinks := numLinksOf cfg
  let payloadHightHalf := cfg.payloadHight * 0.5
  let capsuleHalf := linkLength * 0.5
  let xStart : ℝ := 0.0
  let yStart : ℝ := -((cfg.numRopes / 2 : ℕ) : ℝ) * cfg.ropeSpacing
  let zStart := cfg.initLoadHeight + payloadHightHalf + capsuleHalf
  let yPos := yStart + (ropeInd : ℝ) * cfg.ropeSpacing
  let chainIdx := List.range (numLinks - 1).toNat
  { positions := (List.range numLinks.toNat).map fun (linkInd : ℕ) =>
      Vec3.mk xStart yPos (zStart + (linkInd : ℝ) * linkLength)
    orientations := (List.range numLinks.toNat).map fun _ => Quat.one
    chain :=
      { prototype := createCableJoint cfg Axis.Z
        body0Target := BodyRef.links ropeInd
        body1Target := BodyRef.links ropeInd
        protoIndices := chainIdx.map fun _ => 0
        body0Indices := chainIdx.map fun (k : ℕ) => (k : ℤ)
        body1Indices := chainIdx.map fun (k : ℕ) => (k : ℤ) + 1
        localPos0 := chainIdx.map fun _ => Vec3.mk 0.0 0.0 capsuleHalf
        localPos1 := chainIdx.map fun _ => Vec3.mk 0.0 0.0 (-capsuleHalf)
        localRot0 := chainIdx.map fun _ => Quat.one
        localRot1 := chainIdx.map fun _ => Quat.one }
    payloadAttach :=
      { prototype := createCableJoint cfg Axis.Z
        body0Target := BodyRef.payload
        body1Target := BodyRef.links ropeInd
        protoIndices := [0]
        body0Indices := [0]
        body1Indices := [0]
        localPos0 := [Vec3.mk 0.0 0.0 payloadHightHalf]
        localPos1 := [Vec3.mk 0.0 0.0 (-capsuleHalf)]
        localRot0 := [Quat.one]
        localRot1 := [Quat.one] }
    anchorAttach :=
      { prototype := createUniJoint cfg
        body0Target := BodyRef.links ropeInd
        body1Target := BodyRef.table
        protoIndices := [0]
        body0Indices := [numLinks - 1]
        body1Indices := [0]
        localPos0 := [Vec3.mk 0.0 0.0 capsuleHalf]
        localPos1 := [Vec3.mk 0.0 0.0 (-(cfg.tableThickness * cfg.scaleFactor * 0.5))]
        localRot0 := [Quat.one]
        localRot1 := [Quat.one] } }

/-- The body of the per-rope loop of `_createMultiRopes` (lines 426-597):
radially laid-out capsule poses with a shared elevation angle, plus the
three joint instancers (the structural anchor is the per-rope box). -/
def multiRope (cfg : RopesConfig) (elevation_angle : ℝ) (ropeInd : ℕ) : RopeAssembly :=
  let linkLength := linkLengthOf cfg
  let numLinks := numLinksOf cfg
  let capsuleHalf := linkLength * 0.5
  let angle_increment := 2 * Real.pi / (cfg.numRopes : ℝ)
  let cos_elevation := Real.cos elevation_angle
  let sin_elevation := Real.sin elevation_angle
  let angle := angle_increment * (ropeInd : ℝ)
  let xstartPos := (cfg.payloadRadius + capsuleHalf * cos_elevation) * Real.cos angle
  let ystartPos := (cfg.payloadRadius + capsuleHalf * cos_elevation) * Real.sin angle
  let zstartPos := cfg.initLoadHeight + capsuleHalf * sin_elevation
  let q_z := calculate_orientation angle (Vec3.mk 0.0 0.0 1.0)
  let q_y := calculate_orientation elevation_angle (Vec3.mk 0.0 (-1.0) 0.0)
  let orientation := q_z.mul q_y
  let chainIdx := List.range (numLinks - 1).toNat
  { positions := (List.range numLinks.toNat).map fun (linkInd : ℕ) =>
      Vec3.mk (xstartPos + (linkInd : ℝ) * linkLength * Real.cos angle * cos_elevation)
              (ystartPos + (linkInd : ℝ) * linkLength * Real.sin angle * cos_elevation)
              (zstartPos + (linkInd : ℝ) * linkLength * sin_elevation)
    orientations := (List.range numLinks.toNat).map fun _ => orientation
    chain :=
      { prototype := createCableJoint cfg Axis.X
        body0Target := BodyRef.links ropeInd
        body1Target := BodyRef.links ropeInd
        protoIndices := chainIdx.map fun _ => 0
        body0Indices := chainIdx.map fun (k : ℕ) => (k : ℤ)
        body1Indices := chainIdx.map fun (k : ℕ) => (k : ℤ) + 1
        localPos0 := chainIdx.map fun _ => Vec3.mk capsuleHalf 0.0 0.0
        localPos1 := chainIdx.map fun _ => Vec3.mk (-capsuleHalf) 0.0 0.0
        localRot0 := chainIdx.map fun _ => Quat.one
        localRot1 := chainIdx.map fun _ => Quat.one }
    payloadAttach :=
      { prototype := createCableJoint cfg Axis.Z
        body0Target := BodyRef.payload
        body1Target := BodyRef.links ropeInd
        protoIndices := [0]
        body0Indices := [0]
        body1Indices := [0]
        localPos0 := [Vec3.mk (cfg.payloadRadius * Real.cos angle)
          (cfg.payloadRadius * Real.sin angle) 0.0]
        localPos1 := [Vec3.mk (-capsuleHalf) 0.0 0.0]
        localRot0 := [orientation]
        localRot1 := [Quat.one] }
    anchorAttach :=
      { prototype := createUniJoint cfg
        body0Target := BodyRef.links ropeInd
        body1Target := BodyRef.box ropeInd
        protoIndices := [0]
        body0Indices := [numLinks - 1]
        body1Indices := [0]
        localPos0 := [Vec3.mk capsuleHalf 0.0 0.0]
        localPos1 := [Vec3.mk (-(cfg.boxSize * cfg.scaleFactor * 0.5)) 0.0 0.0]
        localRot0 := [Quat.one]
        localRot1 := [Quat.one] } }



/-! ### General lemmas about the embedded operations -/

/-- Rotating the local forward axis X by the composed quaternion
`q_z(θ) * q_y(φ)` (yaw about +Z applied first in the intrinsic order, then
pitch about the yawed −Y axis) gives the radial direction vector. -/
theorem rotate_yawPitch_forward (θ φ : ℝ) :
    Quat.rotate ((calculate_orientation θ (Vec3.mk 0.0 0.0 1.0)).mul
        (calculate_orientation φ (Vec3.mk 0.0 (-1.0) 0.0))) (Vec3.mk 1.0 0.0 0.0) =
      Vec3.mk (Real.cos θ * Real.cos φ) (Real.sin θ * Real.cos φ) (Real.sin φ) := by
  have hcθ := Real.cos_two_mul (θ / 2)
  have hsθ := Real.sin_two_mul (θ / 2)
  have hcφ := Real.cos_two_mul (φ / 2)
  have hsφ := Real.sin_two_mul (φ / 2)
  rw [show 2 * (θ / 2) = θ by ring] at hcθ hsθ
  rw [show 2 * (φ / 2) = φ by ring] at hcφ hsφ
  have hpθ := Real.sin_sq_add_cos_sq (θ / 2)
  have hpφ := Real.sin_sq_add_cos_sq (φ / 2)
  simp only [calculate_orientation, Quat.mul, Quat.conj, Quat.rotate, Vec3.mk.injEq]
  norm_num [Real.sqrt_one]
  rw [hcθ, hsθ, hcφ, hsφ]
  refine ⟨?_, ?_, ?_⟩
  · linear_combination (Real.sin (φ / 2) ^ 2 - Real.cos (φ / 2) ^ 2) * hpθ +
      (1 - 2 * Real.cos (θ / 2) ^ 2) * hpφ
  · linear_combination (-2 * Real.sin (θ / 2) * Real.cos (θ / 2)) * hpφ
  · linear_combination (2 * Real.cos (φ / 2) * Real.sin (φ / 2)) * hpθ

/-- The cable-joint prototype differs from the fixed-joint prototype
(`transX` is bounded differently), for every axis selector. -/
theorem cableJoint_ne_fixJoint (n : ℕ) (L m hgt mpu : ℝ) (a : Axis) :
    createCableJoint (create n L m hgt mpu) a ≠ createFixJoint (create n L m hgt mpu) := by
  intro h
  have h2 := congrArg (fun j => j.transX.limit) h
  cases a <;>
    simp [create, createCableJoint, createFixJoint, slideDOF, lockedDOFs, rotatedDOFs,
      D6Joint.set] at h2 <;>
    norm_num at h2

/-- The cable-joint prototype differs from the universal-joint prototype
(`rotX` has no authored bounds on a cable joint), for every axis selector. -/
theorem cableJoint_ne_uniJoint (n : ℕ) (L m hgt mpu : ℝ) (a : Axis) :
    createCableJoint (create n L m hgt mpu) a ≠ createUniJoint (create n L m hgt mpu) := by
  intro h
  have h2 := congrArg (fun j => j.rotX.limit) h
  cases a <;>
    simp [create, createCableJoint, createUniJoint, slideDOF, lockedDOFs, rotatedDOFs,
      D6Joint.set] at h2

/-- The universal-joint prototype differs from the fixed-joint prototype. -/
theorem uniJoint_ne_fixJoint (n : ℕ) (L m hgt mpu : ℝ) :
    createUniJoint (create n L m hgt mpu) ≠ createFixJoint (create n L m hgt mpu) := by
  intro h
  have h2 := congrArg (fun j => j.transX.limit) h
  simp [create, createUniJoint, createFixJoint, D6Joint.set] at h2
  norm_num at h2

/-! ### The claims -/

/-- Claim C5: for every cable joint produced by `_createCableJoint` (any
translation axis), the slide DOF's limit stiffness equals 11 × the drive
stiffness (hence exceeds it), the limit damping equals the drive damping,
the limit contact distance is 1e-4, and the drive's maximum force cap is
10 × payloadMass × 9.81. -/
theorem claim5_cable_joint_numeric_policy (n : ℕ) (L m hgt mpu : ℝ) :
    ((createCableJoint (create n L m hgt mpu) Axis.Z).transZ.physxLimit =
        some ⟨11 * (create n L m hgt mpu).slide_stiffness,
          (create n L m hgt mpu).slide_damping, 0.0001⟩ ∧
      (createCableJoint (create n L m hgt mpu) Axis.Z).transZ.drive =
        some ⟨"force", 10 * (create n L m hgt mpu).payloadMass * 9.81,
          (create n L m hgt mpu).slide_damping, (create n L m hgt mpu).slide_stiffness⟩) ∧
    ((createCableJoint (create n L m hgt mpu) Axis.X).transX.physxLimit =
        some ⟨11 * (create n L m hgt mpu).slide_stiffness,
          (create n L m hgt mpu).slide_damping, 0.0001⟩ ∧
      (createCableJoint (create n L m hgt mpu) Axis.X).transX.drive =
        some ⟨"force", 10 * (create n L m hgt mpu).payloadMass * 9.81,
          (create n L m hgt mpu).slide_damping, (create n L m hgt mpu).slide_stiffness⟩) ∧
    ((createCableJoint (create n L m hgt mpu) Axis.Y).transY.physxLimit =
        some ⟨11 * (create n L m hgt mpu).slide_stiffness,
          (create n L m hgt mpu).slide_damping, 0.0001⟩ ∧
      (createCableJoint (create n L m hgt mpu) Axis.Y).transY.drive =
        some ⟨"force", 10 * (create n L m hgt mpu).payloadMass * 9.81,
          (create n L m hgt mpu).slide_damping, (create n L m hgt mpu).slide_stiffness⟩) ∧
    (create n L m hgt mpu).slide_stiffness < (create n L m hgt mpu).slide_stiffness_limit ∧
    (create n L m hgt mpu).slide_stiffness_limit = 11 * (create n L m hgt mpu).slide_stiffness ∧
    (create n L m hgt mpu).slide_damping_limit = (create n L m hgt mpu).slide_damping ∧
    (create n L m hgt mpu).slideMaxforceLimit =
      10 * (create n L m hgt mpu).payloadMass * 9.81 := by
  refine ⟨?_, ?_, ?_, ?_, ?_, ?_, ?_⟩ <;>
    simp [create, createCableJoint, slideDOF, lockedDOFs, rotatedDOFs, D6Joint.set] <;>
    norm_num

/-- Claim C6: for every translation-axis selector, the cable joint bounds
exactly one translation DOF (the slide axis) to the negative-to-near-zero
range [-1, 0.01], locks the two orthogonal translations with a zero-width
range, and authors no low/high bounds on any of the three rotations. -/
theorem claim6_cable_joint_dof_ranges (n : ℕ) (L m hgt mpu : ℝ) :
    ((createCableJoint (create n L m hgt mpu) Axis.Z).transZ.limit =
        some ⟨some (-1), some 0.01⟩ ∧
      (createCableJoint (create n L m hgt mpu) Axis.Z).transX.limit =
        some ⟨some 0.0, some 0.0⟩ ∧
      (createCableJoint (create n L m hgt mpu) Axis.Z).transY.limit =
        some ⟨some 0.0, some 0.0⟩ ∧
      (createCableJoint (create n L m hgt mpu) Axis.Z).rotX.limit = some ⟨none, none⟩ ∧
      (createCableJoint (create n L m hgt mpu) Axis.Z).rotY.limit = some ⟨none, none⟩ ∧
      (createCableJoint (create n L m hgt mpu) Axis.Z).rotZ.limit = some ⟨none, none⟩) ∧
    ((createCableJoint (create n L m hgt mpu) Axis.X).transX.limit =
        some ⟨some (-1), some 0.01⟩ ∧
      (createCableJoint (create n L m hgt mpu) Axis.X).transY.limit =
        some ⟨some 0.0, some 0.0⟩ ∧
      (createCableJoint (create n L m hgt mpu) Axis.X).transZ.limit =
        some ⟨some 0.0, some 0.0⟩ ∧
      (createCableJoint (create n L m hgt mpu) Axis.X).rotX.limit = some ⟨none, none⟩ ∧
      (createCableJoint (create n L m hgt mpu) Axis.X).rotY.limit = some ⟨none, none⟩ ∧
      (createCableJoint (create n L m hgt mpu) Axis.X).rotZ.limit = some ⟨none, none⟩) ∧
    ((createCableJoint (create n L m hgt mpu) Axis.Y).transY.limit =
        some ⟨some (-1), some 0.01⟩ ∧
      (createCableJoint (create n L m hgt mpu) Axis.Y).transX.limit =
        some ⟨some 0.0, some 0.0⟩ ∧
      (createCableJoint (create n L m hgt mpu) Axis.Y).transZ.limit =
        some ⟨some 0.0, some 0.0⟩ ∧
      (createCableJoint (create n L m hgt mpu) Axis.Y).rotX.limit = some ⟨none, none⟩ ∧
      (createCableJoint (create n L m hgt mpu) Axis.Y).rotY.limit = some ⟨none, none⟩ ∧
      (createCableJoint (create n L m hgt mpu) Axis.Y).rotZ.limit = some ⟨none, none⟩) ∧
    ((-1 : ℝ) < 0 ∧ (0 : ℝ) < 0.01) := by
  refine ⟨?_, ?_, ?_, ?_⟩
  all_goals simp [createCableJoint, slideDOF, lockedDOFs, rotatedDOFs, D6Joint.set]
  all_goals norm_num

/-- Claim C3: in the radial layout every link of assembly `i` carries the
same orientation quaternion, the Hamilton product `q_z * q_y` of the yaw
rotation about +Z by `angle_i = i·2π/N` (applied first, intrinsically) with
the pitch rotation by the elevation angle about −Y; rotating the local
forward (slide) axis X by it yields exactly the direction vector
(cos angle·cos elev, sin angle·cos elev, sin elev) used to place the links. -/
theorem claim3_radial_orientation (n : ℕ) (L m hgt mpu φ : ℝ) (i : ℕ) :
    (multiRope (create n L m hgt mpu) φ i).orientations =
      List.replicate (numLinksOf (create n L m hgt mpu)).toNat
        ((calculate_orientation (2 * Real.pi / (n : ℝ) * (i : ℝ))
            (Vec3.mk 0.0 0.0 1.0)).mul
          (calculate_orientation φ (Vec3.mk 0.0 (-1.0) 0.0))) ∧
    Quat.rotate
        ((calculate_orientation (2 * Real.pi / (n : ℝ) * (i : ℝ))
            (Vec3.mk 0.0 0.0 1.0)).mul
          (calculate_orientation φ (Vec3.mk 0.0 (-1.0) 0.0)))
        (Vec3.mk 1.0 0.0 0.0) =
      Vec3.mk (Real.cos (2 * Real.pi / (n : ℝ) * (i : ℝ)) * Real.cos φ)
        (Real.sin (2 * Real.pi / (n : ℝ) * (i : ℝ)) * Real.cos φ) (Real.sin φ) := by
  refine ⟨?_, rotate_yawPitch_forward _ _⟩
  simp [multiRope, create, List.map_const']

/-- Claim C8: in the radial layout, assembly `i`'s payload-attachment joint
uses, on the payload side, local anchor position
(payloadRadius·cos angle_i, payloadRadius·sin angle_i, 0) and local anchor
orientation equal to the assembly's full link orientation (yaw then pitch),
while the first-link side uses position (−half link length, 0, 0) with
identity orientation. -/
theorem claim8_payload_attachment_frame (n : ℕ) (L m hgt mpu φ : ℝ) (i : ℕ) :
    (multiRope (create n L m hgt mpu) φ i).payloadAttach.localPos0 =
      [Vec3.mk ((create n L m hgt mpu).payloadRadius *
          Real.cos (2 * Real.pi / (n : ℝ) * (i : ℝ)))
        ((create n L m hgt mpu).payloadRadius *
          Real.sin (2 * Real.pi / (n : ℝ) * (i : ℝ))) 0.0] ∧
    (multiRope (create n L m hgt mpu) φ i).payloadAttach.localRot0 =
      [(calculate_orientation (2 * Real.pi / (n : ℝ) * (i : ℝ))
          (Vec3.mk 0.0 0.0 1.0)).mul
        (calculate_orientation φ (Vec3.mk 0.0 (-1.0) 0.0))] ∧
    (multiRope (create n L m hgt mpu) φ i).payloadAttach.localPos1 =
      [Vec3.mk (-(linkLengthOf (create n L m hgt mpu) * 0.5)) 0.0 0.0] ∧
    (multiRope (create n L m hgt mpu) φ i).payloadAttach.localRot1 = [Quat.one] := by
  refine ⟨?_, ?_, ?_, ?_⟩
  all_goals simp [multiRope, create, linkLengthOf]

/-- Claim C7 (amended): every universal joint locks the three translations
and the `rotZ` rotation with a zero-width range and bounds `rotX`, `rotY`
by the shared cone-angle limit (default 160°), and it is the prototype of
the structure-side attachment in both layouts. Because `_createUniJoint`
always locks `rotZ`, this locks the twist only in the vertical layout
(chain axis Z); in the radial layout the chain's longitudinal axis is X,
so the twist DOF `rotX` is merely cone-limited there. -/
theorem claim7_uni_joint_amended (n : ℕ) (L m hgt mpu φ : ℝ) (i : ℕ) :
    (createUniJoint (create n L m hgt mpu)).transX.limit = some ⟨some 0.0, some 0.0⟩ ∧
    (createUniJoint (create n L m hgt mpu)).transY.limit = some ⟨some 0.0, some 0.0⟩ ∧
    (createUniJoint (create n L m hgt mpu)).transZ.limit = some ⟨some 0.0, some 0.0⟩ ∧
    (createUniJoint (create n L m hgt mpu)).rotZ.limit = some ⟨some 0.0, some 0.0⟩ ∧
    (createUniJoint (create n L m hgt mpu)).rotX.limit =
      some ⟨some (-(create n L m hgt mpu).coneAngleLimit),
        some (create n L m hgt mpu).coneAngleLimit⟩ ∧
    (createUniJoint (create n L m hgt mpu)).rotY.limit =
      some ⟨some (-(create n L m hgt mpu).coneAngleLimit),
        some (create n L m hgt mpu).coneAngleLimit⟩ ∧
    (create n L m hgt mpu).coneAngleLimit = 160 ∧
    (verticalRope (create n L m hgt mpu) i).anchorAttach.prototype =
      createUniJoint (create n L m hgt mpu) ∧
    (multiRope (create n L m hgt mpu) φ i).anchorAttach.prototype =
      createUniJoint (create n L m hgt mpu) := by
  refine ⟨?_, ?_, ?_, ?_, ?_, ?_, rfl, rfl, rfl⟩ <;>
    simp [createUniJoint, D6Joint.set]

/-- Claim C7 is false as stated: in the radial layout the chain's
longitudinal axis is X, so the twist rotation is `rotX`; the emitted
structure-attachment (universal) joint leaves `rotX` cone-limited to
±160° instead of locking it with a zero-width range. -/
theorem claim7_counterexample :
    (multiRope (create 4 1 1 2 0.01) 0 0).anchorAttach.prototype.rotX.limit =
        some ⟨some (-160), some 160⟩ ∧
      (multiRope (create 4 1 1 2 0.01) 0 0).anchorAttach.prototype.rotX.limit ≠
        some ⟨some 0.0, some 0.0⟩ := by
  constructor
  · simp [multiRope, create, createUniJoint, D6Joint.set]
  · simp [multiRope, create, createUniJoint, D6Joint.set]
    norm_num

/-- Claim C10: in both layouts the payload-attachment joint is instantiated
from the cable archetype (with the default Z axis selector, thus the same
spring-damper numeric policy as the chain joints), the structure-side
attachment from the universal archetype, and the fixed archetype is never
the prototype of any emitted joint group. -/
theorem claim10_joint_archetype_selection (n : ℕ) (L m hgt mpu φ : ℝ) (i : ℕ) :
    (verticalRope (create n L m hgt mpu) i).payloadAttach.prototype =
      createCableJoint (create n L m hgt mpu) Axis.Z ∧
    (multiRope (create n L m hgt mpu) φ i).payloadAttach.prototype =
      createCableJoint (create n L m hgt mpu) Axis.Z ∧
    (verticalRope (create n L m hgt mpu) i).chain.prototype =
      createCableJoint (create n L m hgt mpu) Axis.Z ∧
    (multiRope (create n L m hgt mpu) φ i).chain.prototype =
      createCableJoint (create n L m hgt mpu) Axis.X ∧
    (verticalRope (create n L m hgt mpu) i).anchorAttach.prototype =
      createUniJoint (create n L m hgt mpu) ∧
    (multiRope (create n L m hgt mpu) φ i).anchorAttach.prototype =
      createUniJoint (create n L m hgt mpu) ∧
    (verticalRope (create n L m hgt mpu) i).payloadAttach.prototype ≠
      createUniJoint (create n L m hgt mpu) ∧
    (multiRope (create n L m hgt mpu) φ i).payloadAttach.prototype ≠
      createUniJoint (create n L m hgt mpu) ∧
    (verticalRope (create n L m hgt mpu) i).payloadAttach.prototype ≠
      createFixJoint (create n L m hgt mpu) ∧
    (multiRope (create n L m hgt mpu) φ i).payloadAttach.prototype ≠
      createFixJoint (create n L m hgt mpu) ∧
    (verticalRope (create n L m hgt mpu) i).chain.prototype ≠
      createFixJoint (create n L m hgt mpu) ∧
    (multiRope (create n L m hgt mpu) φ i).chain.prototype ≠
      createFixJoint (create n L m hgt mpu) ∧
    (verticalRope (create n L m hgt mpu) i).anchorAttach.prototype ≠
      createFixJoint (create n L m hgt mpu) ∧
    (multiRope (create n L m hgt mpu) φ i).anchorAttach.prototype ≠
      createFixJoint (create n L m hgt mpu) :=
  ⟨rfl, rfl, rfl, rfl, rfl, rfl,
    cableJoint_ne_uniJoint n L m hgt mpu Axis.Z,
    cableJoint_ne_uniJoint n L m hgt mpu Axis.Z,
    cableJoint_ne_fixJoint n L m hgt mpu Axis.Z,
    cableJoint_ne_fixJoint n L m hgt mpu Axis.Z,
    cableJoint_ne_fixJoint n L m hgt mpu Axis.Z,
    cableJoint_ne_fixJoint n L m hgt mpu Axis.X,
    uniJoint_ne_fixJoint n L m hgt mpu,
    uniJoint_ne_fixJoint n L m hgt mpu⟩

/-- Claim C1: for every assembly built by either layout with numLinks ≥ 1
links, the chain-joint index arrays have exactly numLinks − 1 entries, with
joint k connecting link k to link k+1; exactly one payload-side and one
structure-side attachment joint are emitted (single-entry instancers), the
payload-side joint joining the payload to link 0 and the structure-side
joint joining link numLinks − 1 to the table (vertical) or box (radial) —
so for numLinks = 1 there are no chain joints and both attachment joints
meet at the single link 0. -/
theorem claim1_joint_group_sizes (n : ℕ) (L m hgt mpu φ : ℝ) (i : ℕ)
    (h1 : 1 ≤ numLinksOf (create n L m hgt mpu)) :
    (((verticalRope (create n L m hgt mpu) i).chain.body0Indices.length : ℤ) =
        numLinksOf (create n L m hgt mpu) - 1 ∧
      ((verticalRope (create n L m hgt mpu) i).chain.body1Indices.length : ℤ) =
        numLinksOf (create n L m hgt mpu) - 1 ∧
      (∀ k : ℕ, (k : ℤ) < numLinksOf (create n L m hgt mpu) - 1 →
        (verticalRope (create n L m hgt mpu) i).chain.body0Indices[k]? = some (k : ℤ) ∧
        (verticalRope (create n L m hgt mpu) i).chain.body1Indices[k]? =
          some ((k : ℤ) + 1)) ∧
      (verticalRope (create n L m hgt mpu) i).payloadAttach.protoIndices = [0] ∧
      (verticalRope (create n L m hgt mpu) i).payloadAttach.body0Indices = [0] ∧
      (verticalRope (create n L m hgt mpu) i).payloadAttach.body1Indices = [0] ∧
      (verticalRope (create n L m hgt mpu) i).payloadAttach.body0Target =
        BodyRef.payload ∧
      (verticalRope (create n L m hgt mpu) i).payloadAttach.body1Target =
        BodyRef.links i ∧
      (verticalRope (create n L m hgt mpu) i).anchorAttach.protoIndices = [0] ∧
      (verticalRope (create n L m hgt mpu) i).anchorAttach.body0Indices =
        [numLinksOf (create n L m hgt mpu) - 1] ∧
      (verticalRope (create n L m hgt mpu) i).anchorAttach.body1Indices = [0] ∧
      (verticalRope (create n L m hgt mpu) i).anchorAttach.body0Target =
        BodyRef.links i ∧
      (verticalRope (create n L m hgt mpu) i).anchorAttach.body1Target =
        BodyRef.table) ∧
    (((multiRope (create n L m hgt mpu) φ i).chain.body0Indices.length : ℤ) =
        numLinksOf (create n L m hgt mpu) - 1 ∧
      ((multiRope (create n L m hgt mpu) φ i).chain.body1Indices.length : ℤ) =
        numLinksOf (create n L m hgt mpu) - 1 ∧
      (∀ k : ℕ, (k : ℤ) < numLinksOf (create n L m hgt mpu) - 1 →
        (multiRope (create n L m hgt mpu) φ i).chain.body0Indices[k]? = some (k : ℤ) ∧
        (multiRope (create n L m hgt mpu) φ i).chain.body1Indices[k]? =
          some ((k : ℤ) + 1)) ∧
      (multiRope (create n L m hgt mpu) φ i).payloadAttach.protoIndices = [0] ∧
      (multiRope (create n L m hgt mpu) φ i).payloadAttach.body0Indices = [0] ∧
      (multiRope (create n L m hgt mpu) φ i).payloadAttach.body1Indices = [0] ∧
      (multiRope (create n L m hgt mpu) φ i).payloadAttach.body0Target =
        BodyRef.payload ∧
      (multiRope (create n L m hgt mpu) φ i).payloadAttach.body1Target =
        BodyRef.links i ∧
      (multiRope (create n L m hgt mpu) φ i).anchorAttach.protoIndices = [0] ∧
      (multiRope (create n L m hgt mpu) φ i).anchorAttach.body0Indices =
        [numLinksOf (create n L m hgt mpu) - 1] ∧
      (multiRope (create n L m hgt mpu) φ i).anchorAttach.body1Indices = [0] ∧
      (multiRope (create n L m hgt mpu) φ i).anchorAttach.body0Target =
        BodyRef.links i ∧
      (multiRope (create n L m hgt mpu) φ i).anchorAttach.body1Target =
        BodyRef.box i) := by
  have hlen : (((numLinksOf (create n L m hgt mpu) - 1).toNat : ℤ)) =
      numLinksOf (create n L m hgt mpu) - 1 := by omega
  have hidx : ∀ k : ℕ, (k : ℤ) < numLinksOf (create n L m hgt mpu) - 1 →
      k < (numLinksOf (create n L m hgt mpu) - 1).toNat := by omega
  refine ⟨⟨?_, ?_, ?_, rfl, rfl, rfl, rfl, rfl, rfl, rfl, rfl, rfl, rfl⟩,
    ⟨?_, ?_, ?_, rfl, rfl, rfl, rfl, rfl, rfl, rfl, rfl, rfl, rfl⟩⟩ <;>
    first
    | (intro k hk
       constructor <;>
         simp only [verticalRope, multiRope, List.getElem?_map,
           List.getElem?_range (hidx k hk), Option.map_some'])
    | simp only [verticalRope, multiRope, List.length_map, List.length_range, hlen]

/-- Concrete instantiation of claim C1 at numRopes = 1, ropeLength = 1
(numLinks = 10). -/
theorem claim1_joint_group_sizes_witness :
    1 ≤ numLinksOf (create 1 1 1 2 0.01) ∧
    ((((verticalRope (create 1 1 1 2 0.01) 0).chain.body0Indices.length : ℤ) =
        numLinksOf (create 1 1 1 2 0.01) - 1 ∧
      ((verticalRope (create 1 1 1 2 0.01) 0).chain.body1Indices.length : ℤ) =
        numLinksOf (create 1 1 1 2 0.01) - 1 ∧
      (∀ k : ℕ, (k : ℤ) < numLinksOf (create 1 1 1 2 0.01) - 1 →
        (verticalRope (create 1 1 1 2 0.01) 0).chain.body0Indices[k]? = some (k : ℤ) ∧
        (verticalRope (create 1 1 1 2 0.01) 0).chain.body1Indices[k]? =
          some ((k : ℤ) + 1)) ∧
      (verticalRope (create 1 1 1 2 0.01) 0).payloadAttach.protoIndices = [0] ∧
      (verticalRope (create 1 1 1 2 0.01) 0).payloadAttach.body0Indices = [0] ∧
      (verticalRope (create 1 1 1 2 0.01) 0).payloadAttach.body1Indices = [0] ∧
      (verticalRope (create 1 1 1 2 0.01) 0).payloadAttach.body0Target =
        BodyRef.payload ∧
      (verticalRope (create 1 1 1 2 0.01) 0).payloadAttach.body1Target =
        BodyRef.links 0 ∧
      (verticalRope (create 1 1 1 2 0.01) 0).anchorAttach.protoIndices = [0] ∧
      (verticalRope (create 1 1 1 2 0.01) 0).anchorAttach.body0Indices =
        [numLinksOf (create 1 1 1 2 0.01) - 1] ∧
      (verticalRope (create 1 1 1 2 0.01) 0).anchorAttach.body1Indices = [0] ∧
      (verticalRope (create 1 1 1 2 0.01) 0).anchorAttach.body0Target =
        BodyRef.links 0 ∧
      (verticalRope (create 1 1 1 2 0.01) 0).anchorAttach.body1Target =
        BodyRef.table) ∧
    (((multiRope (create 1 1 1 2 0.01) 0 0).chain.body0Indices.length : ℤ) =
        numLinksOf (create 1 1 1 2 0.01) - 1 ∧
      ((multiRope (create 1 1 1 2 0.01) 0 0).chain.body1Indices.length : ℤ) =
        numLinksOf (create 1 1 1 2 0.01) - 1 ∧
      (∀ k : ℕ, (k : ℤ) < numLinksOf (create 1 1 1 2 0.01) - 1 →
        (multiRope (create 1 1 1 2 0.01) 0 0).chain.body0Indices[k]? = some (k : ℤ) ∧
        (multiRope (create 1 1 1 2 0.01) 0 0).chain.body1Indices[k]? =
          some ((k : ℤ) + 1)) ∧
      (multiRope (create 1 1 1 2 0.01) 0 0).payloadAttach.protoIndices = [0] ∧
      (multiRope (create 1 1 1 2 0.01) 0 0).payloadAttach.body0Indices = [0] ∧
      (multiRope (create 1 1 1 2 0.01) 0 0).payloadAttach.body1Indices = [0] ∧
      (multiRope (create 1 1 1 2 0.01) 0 0).payloadAttach.body0Target =
        BodyRef.payload ∧
      (multiRope (create 1 1 1 2 0.01) 0 0).payloadAttach.body1Target =
        BodyRef.links 0 ∧
      (multiRope (create 1 1 1 2 0.01) 0 0).anchorAttach.protoIndices = [0] ∧
      (multiRope (create 1 1 1 2 0.01) 0 0).anchorAttach.body0Indices =
        [numLinksOf (create 1 1 1 2 0.01) - 1] ∧
      (multiRope (create 1 1 1 2 0.01) 0 0).anchorAttach.body1Indices = [0] ∧
      (multiRope (create 1 1 1 2 0.01) 0 0).anchorAttach.body0Target =
        BodyRef.links 0 ∧
      (multiRope (create 1 1 1 2 0.01) 0 0).anchorAttach.body1Target =
        BodyRef.box 0)) :=
  ⟨by norm_num [numLinksOf, linkLengthOf, create, pyInt],
    claim1_joint_group_sizes 1 1 1 2 0.01 0 0
      (by norm_num [numLinksOf, linkLengthOf, create, pyInt])⟩

/-- Claim C2: in the radial layout with N assemblies, assembly i places its
links at positions start + k·pitch·direction, where start's azimuth is
i·2π/N, the direction vector is
(cos angle·cos elev, sin angle·cos elev, sin elev), and the first link's
horizontal distance from the payload's vertical axis is exactly
payloadRadius + (half link length)·cos(elevation). -/
theorem claim2_radial_link_positions (n : ℕ) (L m hgt mpu φ : ℝ) (i k : ℕ)
    (hk : k < (multiRope (create n L m hgt mpu) φ i).positions.length) :
    (multiRope (create n L m hgt mpu) φ i).positions[k]? =
      some (Vec3.add
        (Vec3.mk
          (((create n L m hgt mpu).payloadRadius +
              linkLengthOf (create n L m hgt mpu) * 0.5 * Real.cos φ) *
            Real.cos (2 * Real.pi / (n : ℝ) * (i : ℝ)))
          (((create n L m hgt mpu).payloadRadius +
              linkLengthOf (create n L m hgt mpu) * 0.5 * Real.cos φ) *
            Real.sin (2 * Real.pi / (n : ℝ) * (i : ℝ)))
          (hgt + linkLengthOf (create n L m hgt mpu) * 0.5 * Real.sin φ))
        (Vec3.scale ((k : ℝ) * linkLengthOf (create n L m hgt mpu))
          (Vec3.mk (Real.cos (2 * Real.pi / (n : ℝ) * (i : ℝ)) * Real.cos φ)
            (Real.sin (2 * Real.pi / (n : ℝ) * (i : ℝ)) * Real.cos φ)
            (Real.sin φ)))) ∧
    Real.sqrt
        ((((create n L m hgt mpu).payloadRadius +
              linkLengthOf (create n L m hgt mpu) * 0.5 * Real.cos φ) *
            Real.cos (2 * Real.pi / (n : ℝ) * (i : ℝ))) ^ 2 +
          (((create n L m hgt mpu).payloadRadius +
              linkLengthOf (create n L m hgt mpu) * 0.5 * Real.cos φ) *
            Real.sin (2 * Real.pi / (n : ℝ) * (i : ℝ))) ^ 2) =
      (create n L m hgt mpu).payloadRadius +
        linkLengthOf (create n L m hgt mpu) * 0.5 * Real.cos φ := by
  constructor
  · have hk2 : k < (numLinksOf (create n L m hgt mpu)).toNat := by
      simpa only [multiRope, List.length_map, List.length_range] using hk
    show ((List.range (numLinksOf (create n L m hgt mpu)).toNat).map _)[k]? = _
    rw [List.getElem?_map, List.getElem?_range hk2, Option.map_some']
    simp only [create, Vec3.add, Vec3.scale, Vec3.mk.injEq, Option.some.injEq]
    refine ⟨by ring_nf, by ring_nf, by ring_nf⟩
  · have hsum : (((create n L m hgt mpu).payloadRadius +
          linkLengthOf (create n L m hgt mpu) * 0.5 * Real.cos φ) *
            Real.cos (2 * Real.pi / (n : ℝ) * (i : ℝ))) ^ 2 +
          (((create n L m hgt mpu).payloadRadius +
            linkLengthOf (create n L m hgt mpu) * 0.5 * Real.cos φ) *
            Real.sin (2 * Real.pi / (n : ℝ) * (i : ℝ))) ^ 2 =
        ((create n L m hgt mpu).payloadRadius +
          linkLengthOf (create n L m hgt mpu) * 0.5 * Real.cos φ) ^ 2 := by
      have hp := Real.sin_sq_add_cos_sq (2 * Real.pi / (n : ℝ) * (i : ℝ))
      linear_combination (((create n L m hgt mpu).payloadRadius +
        linkLengthOf (create n L m hgt mpu) * 0.5 * Real.cos φ) ^ 2) * hp
    rw [hsum]
    apply Real.sqrt_sq
    have hcos := Real.neg_one_le_cos φ
    simp only [create, linkLengthOf]
    norm_num
    nlinarith [hcos]

/-- Concrete instantiation of claim C2 at numRopes = 4, ropeLength = 1,
elevation 0, assembly 0, link 0. -/
theorem claim2_radial_link_positions_witness :
    0 < (multiRope (create 4 1 1 2 0.01) 0 0).positions.length ∧
    ((multiRope (create 4 1 1 2 0.01) 0 0).positions[0]? =
      some (Vec3.add
        (Vec3.mk
          (((create 4 1 1 2 0.01).payloadRadius +
              linkLengthOf (create 4 1 1 2 0.01) * 0.5 * Real.cos 0) *
            Real.cos (2 * Real.pi / ((4 : ℕ) : ℝ) * ((0 : ℕ) : ℝ)))
          (((create 4 1 1 2 0.01).payloadRadius +
              linkLengthOf (create 4 1 1 2 0.01) * 0.5 * Real.cos 0) *
            Real.sin (2 * Real.pi / ((4 : ℕ) : ℝ) * ((0 : ℕ) : ℝ)))
          ((2 : ℝ) + linkLengthOf (create 4 1 1 2 0.01) * 0.5 * Real.sin 0))
        (Vec3.scale (((0 : ℕ) : ℝ) * linkLengthOf (create 4 1 1 2 0.01))
          (Vec3.mk (Real.cos (2 * Real.pi / ((4 : ℕ) : ℝ) * ((0 : ℕ) : ℝ)) * Real.cos 0)
            (Real.sin (2 * Real.pi / ((4 : ℕ) : ℝ) * ((0 : ℕ) : ℝ)) * Real.cos 0)
            (Real.sin 0)))) ∧
    Real.sqrt
        ((((create 4 1 1 2 0.01).payloadRadius +
              linkLengthOf (create 4 1 1 2 0.01) * 0.5 * Real.cos 0) *
            Real.cos (2 * Real.pi / ((4 : ℕ) : ℝ) * ((0 : ℕ) : ℝ))) ^ 2 +
          (((create 4 1 1 2 0.01).payloadRadius +
              linkLengthOf (create 4 1 1 2 0.01) * 0.5 * Real.cos 0) *
            Real.sin (2 * Real.pi / ((4 : ℕ) : ℝ) * ((0 : ℕ) : ℝ))) ^ 2) =
      (create 4 1 1 2 0.01).payloadRadius +
        linkLengthOf (create 4 1 1 2 0.01) * 0.5 * Real.cos 0) :=
  ⟨by
    simp only [multiRope, List.length_map, List.length_range]
    norm_num [numLinksOf, linkLengthOf, create, pyInt],
   claim2_radial_link_positions 4 1 1 2 0.01 0 0 0 (by
    simp only [multiRope, List.length_map, List.length_range]
    norm_num [numLinksOf, linkLengthOf, create, pyInt])⟩

/-- Claim C4 (amended): for every positive assemblyLength, numLinks is
computed as ⌊assemblyLength / (linkHalfLength + 2·linkRadius)⌋, but
numLinks ≥ 1 is NOT enforced: no input is rejected, and the builder
unconditionally emits single-entry attachment instancers whose
structure-side link index is numLinks − 1 (which is −1 when numLinks = 0). -/
theorem claim4_link_count_amended (n : ℕ) (L m hgt mpu : ℝ) (hL : 0 < L) :
    numLinksOf (create n L m hgt mpu) =
      ⌊L / linkLengthOf (create n L m hgt mpu)⌋ ∧
    (verticalRope (create n L m hgt mpu) 0).anchorAttach.body0Indices =
      [numLinksOf (create n L m hgt mpu) - 1] ∧
    (verticalRope (create n L m hgt mpu) 0).payloadAttach.body0Indices.length = 1 ∧
    (multiRope (create n L m hgt mpu) 0 0).anchorAttach.body0Indices =
      [numLinksOf (create n L m hgt mpu) - 1] ∧
    (multiRope (create n L m hgt mpu) 0 0).payloadAttach.body0Indices.length = 1 := by
  refine ⟨?_, rfl, rfl, rfl, rfl⟩
  have hq : (0 : ℝ) ≤ L / linkLengthOf (create n L m hgt mpu) := by
    apply div_nonneg hL.le
    simp only [linkLengthOf, create]
    norm_num
  simp only [numLinksOf, pyInt, create, linkLengthOf] at hq ⊢
  rw [if_pos hq]

/-- Claim C4 is false as stated: at ropeLength = 0.05 the computed numLinks
is 0, yet nothing is rejected — the builder still emits its descriptor
arrays, with the structure-side attachment referring to link index −1. -/
theorem claim4_link_count_counterexample :
    numLinksOf (create 1 0.05 1 2 0.01) = 0 ∧
    (verticalRope (create 1 0.05 1 2 0.01) 0).anchorAttach.body0Indices = [-1] ∧
    (verticalRope (create 1 0.05 1 2 0.01) 0).payloadAttach.protoIndices = [0] ∧
    (verticalRope (create 1 0.05 1 2 0.01) 0).anchorAttach.protoIndices = [0] ∧
    (verticalRope (create 1 0.05 1 2 0.01) 0).chain.body0Indices = [] := by
  have h0 : numLinksOf (create 1 0.05 1 2 0.01) = 0 := by
    norm_num [numLinksOf, linkLengthOf, create, pyInt]
  refine ⟨h0, ?_, rfl, rfl, ?_⟩
  · show [numLinksOf (create 1 0.05 1 2 0.01) - 1] = [-1]
    rw [h0]
    norm_num
  · show (List.range (numLinksOf (create 1 0.05 1 2 0.01) - 1).toNat).map _ = []
    rw [h0]
    rfl

/-- Concrete instantiation of (amended) claim C4 at ropeLength = 1. -/
theorem claim4_link_count_amended_witness :
    (0 : ℝ) < 1 ∧
    (numLinksOf (create 1 1 1 2 0.01) =
      ⌊(1 : ℝ) / linkLengthOf (create 1 1 1 2 0.01)⌋ ∧
    (verticalRope (create 1 1 1 2 0.01) 0).anchorAttach.body0Indices =
      [numLinksOf (create 1 1 1 2 0.01) - 1] ∧
    (verticalRope (create 1 1 1 2 0.01) 0).payloadAttach.body0Indices.length = 1 ∧
    (multiRope (create 1 1 1 2 0.01) 0 0).anchorAttach.body0Indices =
      [numLinksOf (create 1 1 1 2 0.01) - 1] ∧
    (multiRope (create 1 1 1 2 0.01) 0 0).payloadAttach.body0Indices.length = 1) :=
  ⟨by norm_num, claim4_link_count_amended 1 1 1 2 0.01 (by norm_num)⟩

/-- Claim C9 (amended): for every assembly of either layout with
numLinks ≥ 1, every link-referencing body index of every joint group lies
in [0, numLinks): chain joints use k and k+1 for k < numLinks − 1, the
payload attachment uses link 0 and the structure attachment uses link
numLinks − 1. -/
theorem claim9_index_ranges_amended (n : ℕ) (L m hgt mpu φ : ℝ) (i : ℕ)
    (h1 : 1 ≤ numLinksOf (create n L m hgt mpu)) :
    (∀ x ∈ (verticalRope (create n L m hgt mpu) i).chain.body0Indices,
      0 ≤ x ∧ x < numLinksOf (create n L m hgt mpu)) ∧
    (∀ x ∈ (verticalRope (create n L m hgt mpu) i).chain.body1Indices,
      0 ≤ x ∧ x < numLinksOf (create n L m hgt mpu)) ∧
    (∀ x ∈ (verticalRope (create n L m hgt mpu) i).payloadAttach.body1Indices,
      0 ≤ x ∧ x < numLinksOf (create n L m hgt mpu)) ∧
    (∀ x ∈ (verticalRope (create n L m hgt mpu) i).anchorAttach.body0Indices,
      0 ≤ x ∧ x < numLinksOf (create n L m hgt mpu)) ∧
    (∀ x ∈ (multiRope (create n L m hgt mpu) φ i).chain.body0Indices,
      0 ≤ x ∧ x < numLinksOf (create n L m hgt mpu)) ∧
    (∀ x ∈ (multiRope (create n L m hgt mpu) φ i).chain.body1Indices,
      0 ≤ x ∧ x < numLinksOf (create n L m hgt mpu)) ∧
    (∀ x ∈ (multiRope (create n L m hgt mpu) φ i).payloadAttach.body1Indices,
      0 ≤ x ∧ x < numLinksOf (create n L m hgt mpu)) ∧
    (∀ x ∈ (multiRope (create n L m hgt mpu) φ i).anchorAttach.body0Indices,
      0 ≤ x ∧ x < numLinksOf (create n L m hgt mpu)) := by
  refine ⟨?_, ?_, ?_, ?_, ?_, ?_, ?_, ?_⟩ <;>
    intro x hx <;>
    simp only [verticalRope, multiRope, List.mem_map, List.mem_range,
      List.mem_singleton] at hx
  all_goals
    obtain ⟨k, hk, rfl⟩ := hx
    omega

/-- Claim C9 is false as stated for the degenerate computed numLinks = 0:
at ropeLength = 0.09 the radial builder still emits a structure-side
attachment whose link index −1 lies outside [0, numLinks) = [0, 0). -/
theorem claim9_index_ranges_counterexample :
    numLinksOf (create 3 0.09 1 2 0.01) = 0 ∧
    (multiRope (create 3 0.09 1 2 0.01) 0 0).anchorAttach.body0Indices = [-1] ∧
    ¬ (∀ x ∈ (multiRope (create 3 0.09 1 2 0.01) 0 0).anchorAttach.body0Indices,
        0 ≤ x ∧ x < numLinksOf (create 3 0.09 1 2 0.01)) := by
  have h0 : numLinksOf (create 3 0.09 1 2 0.01) = 0 := by
    norm_num [numLinksOf, linkLengthOf, create, pyInt]
  have harr : (multiRope (create 3 0.09 1 2 0.01) 0 0).anchorAttach.body0Indices =
      [-1] := by
    show [numLinksOf (create 3 0.09 1 2 0.01) - 1] = [-1]
    rw [h0]
    norm_num
  refine ⟨h0, harr, fun hall => ?_⟩
  have := hall (-1) (by rw [harr]; exact List.mem_singleton_self _)
  omega

/-- Concrete instantiation of (amended) claim C9 at numRopes = 2,
ropeLength = 1, assembly 1. -/
theorem claim9_index_ranges_amended_witness :
    1 ≤ numLinksOf (create 2 1 1 2 0.01) ∧
    ((∀ x ∈ (verticalRope (create 2 1 1 2 0.01) 1).chain.body0Indices,
      0 ≤ x ∧ x < numLinksOf (create 2 1 1 2 0.01)) ∧
    (∀ x ∈ (verticalRope (create 2 1 1 2 0.01) 1).chain.body1Indices,
      0 ≤ x ∧ x < numLinksOf (create 2 1 1 2 0.01)) ∧
    (∀ x ∈ (verticalRope (create 2 1 1 2 0.01) 1).payloadAttach.body1Indices,
      0 ≤ x ∧ x < numLinksOf (create 2 1 1 2 0.01)) ∧
    (∀ x ∈ (verticalRope (create 2 1 1 2 0.01) 1).anchorAttach.body0Indices,
      0 ≤ x ∧ x < numLinksOf (create 2 1 1 2 0.01)) ∧
    (∀ x ∈ (multiRope (create 2 1 1 2 0.01) 0 1).chain.body0Indices,
      0 ≤ x ∧ x < numLinksOf (create 2 1 1 2 0.01)) ∧
    (∀ x ∈ (multiRope (create 2 1 1 2 0.01) 0 1).chain.body1Indices,
      0 ≤ x ∧ x < numLinksOf (create 2 1 1 2 0.01)) ∧
    (∀ x ∈ (multiRope (create 2 1 1 2 0.01) 0 1).payloadAttach.body1Indices,
      0 ≤ x ∧ x < numLinksOf (create 2 1 1 2 0.01)) ∧
    (∀ x ∈ (multiRope (create 2 1 1 2 0.01) 0 1).anchorAttach.body0Indices,
      0 ≤ x ∧ x < numLinksOf (create 2 1 1 2 0.01))) :=
  ⟨by norm_num [numLinksOf, linkLengthOf, create, pyInt],
    claim9_index_ranges_amended 2 1 1 2 0.01 0 1
      (by norm_num [numLinksOf, linkLengthOf, create, pyInt])⟩

end

end CableSim
